import Mathlib

/-!
Shallow embedding of the PKP wallet-as-a-service SDK (src/src/index.ts).

The repository wraps the Lit Protocol client libraries.  All external
effects (key minting on the Lit network, threshold signing, the local
JSON file write) are modelled by an explicit environment `Env`; the
persisted JSON file of `UserPKPData` records is modelled as a `List`
carried in a `World` state, together with a counter of keys minted so
far on the external network.
-/

namespace PKP

/-- UserData from index.ts: { id, name, email }. -/
structure UserData where
  id : String
  name : String
  email : String
deriving DecidableEq, Repr

/-- PKPData from index.ts: { tokenId, publicKey, ethAddress }. -/
structure PKPData where
  tokenId : String
  publicKey : String
  ethAddress : String
deriving DecidableEq, Repr

/-- UserPKPData from index.ts: one persisted binding { user, pkp, createdAt }. -/
structure UserPKPData where
  user : UserData
  pkp : PKPData
  createdAt : String
deriving DecidableEq, Repr

/-- Native currency metadata of a chain config. -/
structure NativeCurrency where
  name : String
  symbol : String
  decimals : Nat
deriving DecidableEq, Repr

/-- ChainConfig from index.ts. -/
structure ChainConfig where
  name : String
  chainId : Nat
  rpcUrl : String
  nativeCurrency : NativeCurrency
  blockExplorer : Option String
deriving DecidableEq, Repr

/-- The static SUPPORTED_CHAINS record of index.ts, as a lookup function
on the chain key.  The datil rpcUrl is the value of the library constant
LIT_RPC.CHRONICLE_YELLOWSTONE. -/
def SUPPORTED_CHAINS (chain : String) : Option ChainConfig :=
  if chain = "ethereum" then
    some { name := "Ethereum Mainnet", chainId := 1,
           rpcUrl := "https://eth.llamarpc.com",
           nativeCurrency := { name := "Ether", symbol := "ETH", decimals := 18 },
           blockExplorer := some "https://etherscan.io" }
  else if chain = "sepolia" then
    some { name := "Sepolia Testnet", chainId := 11155111,
           rpcUrl := "https://sepolia.infura.io/v3/YOUR_KEY",
           nativeCurrency := { name := "Ether", symbol := "ETH", decimals := 18 },
           blockExplorer := some "https://sepolia.etherscan.io" }
  else if chain = "polygon" then
    some { name := "Polygon Mainnet", chainId := 137,
           rpcUrl := "https://polygon.llamarpc.com",
           nativeCurrency := { name := "MATIC", symbol := "MATIC", decimals := 18 },
           blockExplorer := some "https://polygonscan.com" }
  else if chain = "datil" then
    some { name := "Lit Datil Testnet", chainId := 175188,
           rpcUrl := "https://yellowstone-rpc.litprotocol.com",
           nativeCurrency := { name := "LIT", symbol := "LIT", decimals := 18 },
           blockExplorer := none }
  else none

/-- The error conditions raised by the manager (the distinct `throw new
Error(...)` sites of index.ts), plus `upstream` standing for any error
propagated unchanged from the external network client. -/
inductive WErr where
  | notInitialized
  | notFound (userId : String)
  | unsupportedChain (chain : String)
  | unsupportedMessageType (t : String)
  | upstream
deriving DecidableEq, Repr

/-- getChainConfig of index.ts: table lookup, throwing the
unsupported-chain error when the key is absent. -/
def getChainConfig (chain : String) : Except WErr ChainConfig :=
  match SUPPORTED_CHAINS chain with
  | none => .error (.unsupportedChain chain)
  | some config => .ok config

/-- The persisted store: contents of the user-pkps.json file. -/
abbrev Store := List UserPKPData

/-- loadUserPKPs of index.ts reads and parses the whole file; the store
state is taken to be that parsed content (the fs-error fallback to []
corresponds to starting from the empty store). -/
def loadUserPKPs (s : Store) : Store := s

/-- findUserPKP of index.ts: first record whose user.id is strictly
(===, case-sensitively) equal to the queried id. -/
def findUserPKP (s : Store) (userId : String) : Option UserPKPData :=
  (loadUserPKPs s).find? (fun item => item.user.id == userId)

/-- Process-wide mutable state: the persisted store, and how many keys
have been minted so far on the external network (each successful
mintWithAuth mints a fresh PKP NFT). -/
structure World where
  store : Store
  minted : Nat
deriving DecidableEq, Repr

/-- Environment supplying the outcomes of all external effects:
  - `now`: the new Date().toISOString() timestamp;
  - `mintPkp k`: outcome of the k-th mint on the external network
    (the auth-sig construction plus contractClient.mintWithAuth);
  - `saveOk`: whether fs.writeFileSync in saveUserPKPs succeeds;
  - `signOutcome`: outcome of the delegated external signing call. -/
structure Env where
  now : String
  mintPkp : Nat → Except Unit PKPData
  saveOk : Bool
  signOutcome : Except Unit String

/-- saveUserPKPs of index.ts: writes the whole list; a write error is
caught and only logged (the caller never sees it), leaving the file as
it was. -/
def saveUserPKPs (env : Env) (old : Store) (userPKPs : Store) : Store :=
  if env.saveOk then userPKPs else old

/-- createWallet of index.ts.  `init` models the
litClient/contractClient/masterWallet non-null check.  Returns the
result together with the updated world. -/
def createWallet (init : Bool) (env : Env) (userData : UserData) (w : World) :
    Except WErr PKPData × World :=
  if !init then (.error .notInitialized, w)
  else
    match findUserPKP w.store userData.id with
    | some existing => (.ok existing.pkp, w)
    | none =>
      match env.mintPkp w.minted with
      | .error _ => (.error .upstream, w)
      | .ok pkp =>
        let userPKPs := loadUserPKPs w.store
        let newUserPKP : UserPKPData :=
          { user := userData, pkp := pkp, createdAt := env.now }
        let stored := saveUserPKPs env w.store (userPKPs ++ [newUserPKP])
        (.ok pkp, { store := stored, minted := w.minted + 1 })

/-- getWallet of index.ts.  After the init check it looks the user up
(not-found error when absent), resolves the chain config
(unsupported-chain error when absent), and then builds a PKPEthersWallet
object locally: no request is sent to the external network inside
getWallet (the session-signature callback is deferred until a signing
call).  The wallet object is represented by the data it closes over. -/
def getWallet (init : Bool) (s : Store) (userId : String) (chain : String) :
    Except WErr (PKPData × ChainConfig) :=
  if !init then .error .notInitialized
  else
    match findUserPKP s userId with
    | none => .error (.notFound userId)
    | some userPKP =>
      match getChainConfig chain with
      | .error e => .error e
      | .ok chainConfig => .ok (userPKP.pkp, chainConfig)

/-- The messageType values of SignMessageOptions. -/
inductive MessageType where
  | plain
  | eip191
  | eip712
deriving DecidableEq, Repr

/-- The string the error message interpolates for each message type. -/
def MessageType.asString : MessageType → String
  | .plain => "plain"
  | .eip191 => "eip191"
  | .eip712 => "eip712"

/-- SignMessageOptions of index.ts; `none` models an omitted field. -/
structure SignMessageOptions where
  chain : Option String
  messageType : Option MessageType
deriving DecidableEq, Repr

/-- signMessage of index.ts.  Returns the result, the world after the
call, and the number of requests sent to the external network (the
delegated wallet.signMessage counts as one; error paths before it send
none). -/
def signMessage (init : Bool) (env : Env) (w : World) (userId : String)
    (message : String) (options : SignMessageOptions) :
    Except WErr String × World × Nat :=
  let chain := options.chain.getD "datil"
  let messageType := options.messageType.getD .plain
  match getWallet init w.store userId chain with
  | .error e => (.error e, w, 0)
  | .ok _wallet =>
    match messageType with
    | .plain | .eip191 =>
      match env.signOutcome with
      | .error _ => (.error .upstream, w, 1)
      | .ok sig => (.ok sig, w, 1)
    | .eip712 =>
      (.error (.unsupportedMessageType MessageType.eip712.asString), w, 0)

/-- EIP712Domain of index.ts. -/
structure EIP712Domain where
  name : String
  version : String
  chainId : Nat
  verifyingContract : String
  salt : Option String
deriving DecidableEq, Repr

/-- EIP712Types of index.ts: a map from struct name to its list of
(field name, solidity type) pairs. -/
abbrev EIP712Types := List (String × List (String × String))

/-- signTypedData of index.ts.  The typed value (TypeScript `any`) is
carried opaquely as a String.  Same result shape as signMessage. -/
def signTypedData (init : Bool) (env : Env) (w : World) (userId : String)
    (domain : EIP712Domain) (types : EIP712Types) (value : String)
    (chain : String) : Except WErr String × World × Nat :=
  match getWallet init w.store userId chain with
  | .error e => (.error e, w, 0)
  | .ok _wallet =>
    match env.signOutcome with
    | .error _ => (.error .upstream, w, 1)
    | .ok sig => (.ok sig, w, 1)

/-- TransactionRequest of index.ts; optional fields are Options.
gasLimit is a JS number (only the 0-versus-nonzero distinction matters
for the defaulting logic). -/
structure TransactionRequest where
  «to» : String
  value : Option String
  gasLimit : Option Nat
  gasPrice : Option String
  data : Option String
deriving DecidableEq, Repr

/-- The gasPrice field of the request signTransaction builds: either the
caller-supplied string kept by `||`, or the BigNumber
ethers.utils.parseUnits of the default, in wei. -/
inductive GasPriceValue where
  | fromCaller (s : String)
  | defaultWei (wei : Nat)
deriving DecidableEq, Repr

/-- ethers.utils.parseUnits 20 gwei in wei. -/
def twentyGweiWei : Nat := 20000000000

/-- The txRequest object signTransaction forwards to
wallet.signTransaction: the spread of the caller's request with chainId
set and gasLimit/gasPrice/value replaced through JS `||` (which also
replaces the falsy values 0 and the empty string). -/
structure BuiltTxRequest where
  «to» : String
  data : Option String
  chainId : Nat
  gasLimit : Nat
  gasPrice : GasPriceValue
  value : String
deriving DecidableEq, Repr

/-- JS `x || d` on an optional number field. -/
def jsOrNat (x : Option Nat) (d : Nat) : Nat :=
  match x with
  | none => d
  | some n => if n = 0 then d else n

/-- JS `x || d` on an optional string field. -/
def jsOrStr (x : Option String) (d : String) : String :=
  match x with
  | none => d
  | some s => if s = "" then d else s

/-- The txRequest construction inside signTransaction. -/
def buildTxRequest (transaction : TransactionRequest) (chainId : Nat) :
    BuiltTxRequest :=
  { «to» := transaction.«to»
    data := transaction.data
    chainId := chainId
    gasLimit := jsOrNat transaction.gasLimit 21000
    gasPrice :=
      match transaction.gasPrice with
      | none => .defaultWei twentyGweiWei
      | some s => if s = "" then .defaultWei twentyGweiWei else .fromCaller s
    value := jsOrStr transaction.value "0" }

/-- signTransaction of index.ts.  Returns the result, the world, the
number of external network requests, and the txRequest forwarded to the
delegated wallet.signTransaction (none when an error preempted it). -/
def signTransaction (init : Bool) (env : Env) (w : World) (userId : String)
    (transaction : TransactionRequest) (chain : String) :
    Except WErr String × World × Nat × Option BuiltTxRequest :=
  match getWallet init w.store userId chain with
  | .error e => (.error e, w, 0, none)
  | .ok _wallet =>
    match getChainConfig chain with
    | .error e => (.error e, w, 0, none)
    | .ok chainConfig =>
      let txRequest := buildTxRequest transaction chainConfig.chainId
      match env.signOutcome with
      | .error _ => (.error .upstream, w, 1, some txRequest)
      | .ok sig => (.ok sig, w, 1, some txRequest)

/-- verifySignature of index.ts, parameterised by the outcome of
ethers.utils.verifyMessage (`recover`), which either recovers an address
from the message and signature or throws on malformed input. -/
def verifySignature (recover : String → String → Except Unit String)
    (message : String) (signature : String) (expectedAddress : String) : Bool :=
  match recover message signature with
  | .ok recoveredAddress => recoveredAddress.toLower == expectedAddress.toLower
  | .error _ => false

/-- verifyTypedDataSignature of index.ts, parameterised by the outcome
of ethers.utils.verifyTypedData. -/
def verifyTypedDataSignature
    (recover : EIP712Domain → EIP712Types → String → String → Except Unit String)
    (domain : EIP712Domain) (types : EIP712Types) (value : String)
    (signature : String) (expectedAddress : String) : Bool :=
  match recover domain types value signature with
  | .ok recoveredAddress => recoveredAddress.toLower == expectedAddress.toLower
  | .error _ => false

/-- The operations of the public API that touch the store, for the
sequential-invariant claim. -/
inductive Op where
  | create (userData : UserData)
  | signMsg (userId : String) (message : String) (options : SignMessageOptions)
  | signTyped (userId : String) (domain : EIP712Domain) (types : EIP712Types)
      (value : String) (chain : String)
  | signTx (userId : String) (transaction : TransactionRequest) (chain : String)

/-- The world after one operation. -/
def stepWorld (init : Bool) (env : Env) (op : Op) (w : World) : World :=
  match op with
  | .create userData => (createWallet init env userData w).2
  | .signMsg userId message options =>
      (signMessage init env w userId message options).2.1
  | .signTyped userId domain types value chain =>
      (signTypedData init env w userId domain types value chain).2.1
  | .signTx userId transaction chain =>
      (signTransaction init env w userId transaction chain).2.1

/-- The world after a sequence of operations, each with the environment
(external-effect outcomes) in force when it ran. -/
def runOps (init : Bool) (l : List (Env × Op)) (w : World) : World :=
  l.foldl (fun w eo => stepWorld init eo.1 eo.2 w) w

/-- At most one binding per user id. -/
def uniqueIds (s : Store) : Prop :=
  s.Pairwise (fun a b => a.user.id ≠ b.user.id)

/-- Claim C4 helper: the registered chain keys. -/
def supportedChainNames : List String := ["ethereum", "sepolia", "polygon", "datil"]

/-- Concrete environment: every mint succeeds (mint number 0 yields a
key distinct from all later ones), the local file write fails, external
signing succeeds. -/
def envA : Env :=
  { now := "2025-01-01T00:00:00.000Z"
    mintPkp := fun k =>
      .ok { tokenId := if k = 0 then "0xtokA" else "0xtokB"
            publicKey := if k = 0 then "0xpubA" else "0xpubB"
            ethAddress := if k = 0 then "0xaddrA" else "0xaddrB" }
    saveOk := false
    signOutcome := .ok "0xsignature" }

/-- Concrete environment like envA but with a succeeding file write. -/
def envB : Env :=
  { now := "2025-01-01T00:00:00.000Z"
    mintPkp := envA.mintPkp
    saveOk := true
    signOutcome := .ok "0xsignature" }

/-- Concrete user record. -/
def alice : UserData :=
  { id := "alice", name := "Alice", email := "alice@example.com" }

/-- The key record minted by mint number 0 of envA and envB. -/
def pkpA : PKPData :=
  { tokenId := "0xtokA", publicKey := "0xpubA", ethAddress := "0xaddrA" }

/-- The key record minted by mint number 1 of envA and envB. -/
def pkpB : PKPData :=
  { tokenId := "0xtokB", publicKey := "0xpubB", ethAddress := "0xaddrB" }

/-- A second key record bound (artificially) to the same user id as
bindingA, to exhibit first-match-wins. -/
def bindingA : UserPKPData :=
  { user := alice, pkp := pkpA, createdAt := "2025-01-01T00:00:00.000Z" }

/-- A duplicate binding for alice holding a different key record. -/
def bindingA2 : UserPKPData :=
  { user := alice, pkp := pkpB, createdAt := "2025-01-02T00:00:00.000Z" }

/-- The empty initial world. -/
def w0 : World := { store := [], minted := 0 }

/-- A world whose store already binds alice. -/
def w1 : World := { store := [bindingA], minted := 1 }

/-- A transaction request carrying the JS-falsy values gasLimit 0 and
value the empty string. -/
def txZero : TransactionRequest :=
  { «to» := "0x000000000000000000000000000000000000dEaD"
    value := some ""
    gasLimit := some 0
    gasPrice := none
    data := none }

end PKP

namespace PKP

/-- Claim C4.  For every chain name absent from the static table,
getChainConfig fails with the unsupported-chain condition; for each of
the four registered names it succeeds with the chain id of the static
table. -/
theorem getChainConfig_spec :
    (∀ chain : String, chain ∉ supportedChainNames →
      getChainConfig chain = .error (.unsupportedChain chain)) ∧
    ((getChainConfig "ethereum").map (fun c => c.chainId) = .ok 1) ∧
    ((getChainConfig "sepolia").map (fun c => c.chainId) = .ok 11155111) ∧
    ((getChainConfig "polygon").map (fun c => c.chainId) = .ok 137) ∧
    ((getChainConfig "datil").map (fun c => c.chainId) = .ok 175188) := by
  refine ⟨?_, rfl, rfl, rfl, rfl⟩
  intro chain h
  simp only [supportedChainNames, List.mem_cons, List.mem_singleton, not_or] at h
  obtain ⟨h1, h2, h3, h4⟩ := h
  simp [getChainConfig, SUPPORTED_CHAINS, h1, h2, h3, h4]

/-- Witness for C4 at a concrete unregistered name. -/
theorem getChainConfig_spec_witness :
    getChainConfig "solana" = .error (.unsupportedChain "solana") :=
  getChainConfig_spec.1 "solana" (by decide)

end PKP

namespace PKP

/-- Claim C7.  For every store contents and queried id, findUserPKP
returns absent exactly when no record's user id equals the queried id
(character-for-character), and returns some b exactly when b matches
and b is the first matching record of the sequence. -/
theorem findUserPKP_first_match (s : Store) (userId : String) :
    (findUserPKP s userId = none ↔ ∀ b ∈ s, b.user.id ≠ userId) ∧
    (∀ b : UserPKPData, findUserPKP s userId = some b ↔
      b.user.id = userId ∧
      ∃ l₁ l₂, s = l₁ ++ b :: l₂ ∧ ∀ x ∈ l₁, x.user.id ≠ userId) := by
  constructor
  · simp [findUserPKP, loadUserPKPs, List.find?_eq_none]
  · intro b
    simp [findUserPKP, loadUserPKPs, List.find?_eq_some]

/-- Witness for C7: with two bindings for the same id in the store, the
first one is returned. -/
theorem findUserPKP_first_match_witness :
    findUserPKP [bindingA, bindingA2] "alice" = some bindingA :=
  ((findUserPKP_first_match [bindingA, bindingA2] "alice").2 bindingA).mpr
    ⟨rfl, [], [bindingA2], rfl, by simp⟩

end PKP

namespace PKP

/-- Helper: signMessage never changes the world, on every path. -/
theorem signMessage_world (init : Bool) (env : Env) (w : World)
    (userId message : String) (options : SignMessageOptions) :
    (signMessage init env w userId message options).2.1 = w := by
  unfold signMessage
  dsimp only
  cases getWallet init w.store userId (options.chain.getD "datil") with
  | error e => rfl
  | ok wlt =>
    cases options.messageType.getD MessageType.plain with
    | plain => cases env.signOutcome <;> rfl
    | eip191 => cases env.signOutcome <;> rfl
    | eip712 => rfl

/-- Helper: signTypedData never changes the world, on every path. -/
theorem signTypedData_world (init : Bool) (env : Env) (w : World)
    (userId : String) (domain : EIP712Domain) (types : EIP712Types)
    (value chain : String) :
    (signTypedData init env w userId domain types value chain).2.1 = w := by
  unfold signTypedData
  cases getWallet init w.store userId chain with
  | error e => rfl
  | ok wlt => cases env.signOutcome <;> rfl

/-- Helper: signTransaction never changes the world, on every path. -/
theorem signTransaction_world (init : Bool) (env : Env) (w : World)
    (userId : String) (transaction : TransactionRequest) (chain : String) :
    (signTransaction init env w userId transaction chain).2.1 = w := by
  unfold signTransaction
  cases getWallet init w.store userId chain with
  | error e => rfl
  | ok wlt =>
    cases getChainConfig chain with
    | error e => rfl
    | ok cfg => cases env.signOutcome <;> rfl

/-- Helper: a missed lookup means no record of the store carries the id. -/
theorem findUserPKP_none_forall {s : Store} {userId : String}
    (h : findUserPKP s userId = none) : ∀ b ∈ s, b.user.id ≠ userId := by
  simpa [findUserPKP, loadUserPKPs, List.find?_eq_none] using h

/-- Helper: the store after createWallet is either unchanged, or the old
store (free of the user id) extended with exactly one new binding for
the requested user. -/
theorem createWallet_store (init : Bool) (env : Env) (u : UserData) (w : World) :
    (createWallet init env u w).2.store = w.store ∨
    (findUserPKP w.store u.id = none ∧ ∃ p : PKPData,
      (createWallet init env u w).2.store =
        w.store ++ [{ user := u, pkp := p, createdAt := env.now }]) := by
  unfold createWallet
  cases init with
  | false => exact Or.inl rfl
  | true =>
    simp only [Bool.not_true, Bool.false_eq_true, if_false]
    cases hf : findUserPKP w.store u.id with
    | some existing => exact Or.inl rfl
    | none =>
      cases env.mintPkp w.minted with
      | error e => exact Or.inl rfl
      | ok pkp =>
        simp only [saveUserPKPs, loadUserPKPs]
        cases hs : env.saveOk with
        | false => simp
        | true => refine Or.inr ⟨by simp, pkp, by simp⟩

/-- Helper: createWallet preserves the at-most-one-binding-per-id
invariant of the store. -/
theorem createWallet_uniqueIds (init : Bool) (env : Env) (u : UserData)
    (w : World) (h : uniqueIds w.store) :
    uniqueIds (createWallet init env u w).2.store := by
  rcases createWallet_store init env u w with heq | ⟨hf, p, heq⟩
  · rw [heq]; exact h
  · rw [heq]
    rw [uniqueIds, List.pairwise_append]
    refine ⟨h, List.pairwise_singleton _ _, ?_⟩
    intro a ha b hb
    simp only [List.mem_singleton] at hb
    subst hb
    exact findUserPKP_none_forall hf a ha

/-- Helper: one step of any public operation preserves the invariant. -/
theorem stepWorld_uniqueIds (init : Bool) (env : Env) (op : Op) (w : World)
    (h : uniqueIds w.store) : uniqueIds (stepWorld init env op w).store := by
  cases op with
  | create u => exact createWallet_uniqueIds init env u w h
  | signMsg userId message options =>
    rw [stepWorld, signMessage_world]; exact h
  | signTyped userId domain types value chain =>
    rw [stepWorld, signTypedData_world]; exact h
  | signTx userId transaction chain =>
    rw [stepWorld, signTransaction_world]; exact h

/-- Claim C2.  Starting from a store with at most one binding per user
id, every sequential run of createWallet and signing operations (under
arbitrary external-effect outcomes for each call) preserves that no two
stored bindings share a user id. -/
theorem store_unique_invariant (init : Bool) (l : List (Env × Op)) (w : World)
    (h : uniqueIds w.store) : uniqueIds (runOps init l w).store := by
  induction l generalizing w with
  | nil => exact h
  | cons eo t ih =>
    exact ih (stepWorld init eo.1 eo.2 w) (stepWorld_uniqueIds init eo.1 eo.2 w h)

/-- Witness for C2: a concrete run of two createWallet calls for the
same user and a signing call, from the empty store. -/
theorem store_unique_invariant_witness :
    uniqueIds w0.store ∧
    uniqueIds (runOps true
      [(envB, .create alice), (envB, .create alice),
       (envA, .signMsg "alice" "hello" { chain := none, messageType := none })]
      w0).store :=
  ⟨List.Pairwise.nil,
   store_unique_invariant true _ w0 List.Pairwise.nil⟩

end PKP

namespace PKP

/-- Claim C8.  Signing operations are read-only on local state: for
every user id, payload, option set and chain name, and under every
outcome of the external calls, signMessage, signTypedData and
signTransaction return the world (and so the persisted binding store)
unchanged, whether they succeed or fail. -/
theorem signing_reads_only (init : Bool) (env : Env) (w : World)
    (userId message value chain chain2 : String)
    (options : SignMessageOptions) (domain : EIP712Domain)
    (types : EIP712Types) (transaction : TransactionRequest) :
    (signMessage init env w userId message options).2.1 = w ∧
    (signTypedData init env w userId domain types value chain).2.1 = w ∧
    (signTransaction init env w userId transaction chain2).2.1 = w :=
  ⟨signMessage_world init env w userId message options,
   signTypedData_world init env w userId domain types value chain,
   signTransaction_world init env w userId transaction chain2⟩

/-- Claim C3.  For a user id with no stored binding, getWallet and each
signing operation fail with the not-found condition and send zero
requests to the external network, whatever the chain argument and
external-outcome environment are. -/
theorem sign_unknown_user_not_found (env : Env) (w : World)
    (userId message value chain chain2 chain3 : String)
    (options : SignMessageOptions) (domain : EIP712Domain)
    (types : EIP712Types) (transaction : TransactionRequest)
    (h : findUserPKP w.store userId = none) :
    getWallet true w.store userId chain = .error (.notFound userId) ∧
    signMessage true env w userId message options =
      (.error (.notFound userId), w, 0) ∧
    signTypedData true env w userId domain types value chain2 =
      (.error (.notFound userId), w, 0) ∧
    signTransaction true env w userId transaction chain3 =
      (.error (.notFound userId), w, 0, none) := by
  have hg : ∀ c : String, getWallet true w.store userId c =
      .error (.notFound userId) := by
    intro c
    unfold getWallet
    rw [h]
    rfl
  refine ⟨hg chain, ?_, ?_, ?_⟩
  · unfold signMessage
    dsimp only
    rw [hg]
  · unfold signTypedData
    rw [hg]
  · unfold signTransaction
    rw [hg]

/-- Witness for C3 at the empty store and a concrete unknown user id. -/
theorem sign_unknown_user_not_found_witness :
    findUserPKP w0.store "ghost" = none ∧
    signMessage true envA w0 "ghost" "hello"
      { chain := none, messageType := none } =
      (.error (.notFound "ghost"), w0, 0) :=
  ⟨rfl,
   (sign_unknown_user_not_found envA w0 "ghost" "hello" "v" "datil" "datil"
      "datil" { chain := none, messageType := none }
      { name := "d", version := "1", chainId := 1,
        verifyingContract := "0x0", salt := none }
      [] { «to» := "0x0", value := none, gasLimit := none,
           gasPrice := none, data := none } rfl).2.1⟩

end PKP

namespace PKP

/-- Claim C5.  The verification helpers are total: when the address
recovery of the underlying library throws (malformed input) they return
false instead of propagating, and they return true exactly when the
recovered address equals the expected address case-insensitively. -/
theorem verify_helpers_total (recover : String → String → Except Unit String)
    (recoverTyped : EIP712Domain → EIP712Types → String → String →
      Except Unit String)
    (message signature expectedAddress value : String)
    (domain : EIP712Domain) (types : EIP712Types) :
    (recover message signature = .error () →
      verifySignature recover message signature expectedAddress = false) ∧
    (verifySignature recover message signature expectedAddress = true ↔
      ∃ a, recover message signature = .ok a ∧
        a.toLower = expectedAddress.toLower) ∧
    (recoverTyped domain types value signature = .error () →
      verifyTypedDataSignature recoverTyped domain types value signature
        expectedAddress = false) ∧
    (verifyTypedDataSignature recoverTyped domain types value signature
        expectedAddress = true ↔
      ∃ a, recoverTyped domain types value signature = .ok a ∧
        a.toLower = expectedAddress.toLower) := by
  refine ⟨?_, ?_, ?_, ?_⟩
  · intro he
    unfold verifySignature
    rw [he]
  · unfold verifySignature
    cases hr : recover message signature with
    | error u => simp
    | ok a => simp [beq_iff_eq]
  · intro he
    unfold verifyTypedDataSignature
    rw [he]
  · unfold verifyTypedDataSignature
    cases hr : recoverTyped domain types value signature with
    | error u => simp
    | ok a => simp [beq_iff_eq]

/-- Witness for C5: a recovery that throws yields false. -/
theorem verify_helpers_total_witness :
    (fun _ _ : String => (Except.error () : Except Unit String)) "m" "s" =
      .error () ∧
    verifySignature (fun _ _ => .error ()) "m" "s" "0xaddrA" = false :=
  ⟨rfl,
   (verify_helpers_total (fun _ _ => .error ())
      (fun _ _ _ _ => .error ()) "m" "s" "0xaddrA" "v"
      { name := "d", version := "1", chainId := 1,
        verifyingContract := "0x0", salt := none } []).1 rfl⟩

/-- Claim C6.  When the user has no stored binding, external minting
succeeds, and the local store write fails, createWallet still returns
the minted key record without raising, and the store is left unchanged
(so without a binding for the user: the key is orphaned). -/
theorem createWallet_orphan_on_save_failure (env : Env) (u : UserData)
    (w : World) (pkp : PKPData)
    (h0 : findUserPKP w.store u.id = none)
    (h1 : env.saveOk = false)
    (h2 : env.mintPkp w.minted = .ok pkp) :
    (createWallet true env u w).1 = .ok pkp ∧
    (createWallet true env u w).2.store = w.store ∧
    findUserPKP (createWallet true env u w).2.store u.id = none := by
  have hc : createWallet true env u w =
      (.ok pkp, { store := w.store, minted := w.minted + 1 }) := by
    unfold createWallet
    rw [h0, h2]
    simp [saveUserPKPs, loadUserPKPs, h1]
  rw [hc]
  exact ⟨rfl, rfl, h0⟩

/-- Witness for C6 at concrete inputs: envA has a failing file write. -/
theorem createWallet_orphan_on_save_failure_witness :
    findUserPKP w0.store alice.id = none ∧ envA.saveOk = false ∧
    envA.mintPkp w0.minted = .ok pkpA ∧
    (createWallet true envA alice w0).1 = .ok pkpA ∧
    (createWallet true envA alice w0).2.store = w0.store :=
  ⟨rfl, rfl, rfl,
   (createWallet_orphan_on_save_failure envA alice w0 pkpA rfl rfl rfl).1,
   (createWallet_orphan_on_save_failure envA alice w0 pkpA rfl rfl rfl).2.1⟩

end PKP

namespace PKP

/-- Helper: appending a matching binding to a store free of the id makes
it the lookup result. -/
theorem findUserPKP_append_none {s : Store} {userId : String}
    (h : findUserPKP s userId = none) (b : UserPKPData)
    (hb : b.user.id = userId) : findUserPKP (s ++ [b]) userId = some b := by
  unfold findUserPKP loadUserPKPs at h ⊢
  rw [List.find?_append, h]
  simp [List.find?, hb]

/-- Helper: with a stored binding and a registered chain, getWallet
succeeds on the initialized manager. -/
theorem getWallet_ok {s : Store} {userId chain : String} {b : UserPKPData}
    (hf : findUserPKP s userId = some b)
    (hc : (SUPPORTED_CHAINS chain).isSome = true) :
    ∃ cfg, SUPPORTED_CHAINS chain = some cfg ∧
      getWallet true s userId chain = .ok (b.pkp, cfg) := by
  cases hcc : SUPPORTED_CHAINS chain with
  | none => rw [hcc] at hc; cases hc
  | some cfg =>
    refine ⟨cfg, rfl, ?_⟩
    unfold getWallet getChainConfig
    rw [hf, hcc]
    rfl

/-- Counterexample to C1 as stated: with a silently failing local file
write (which createWallet does not surface), the first call succeeds
and returns the mint-0 key, yet the second call mints again (minted
count reaches 2) and returns a different key record. -/
theorem createWallet_idempotent_counterexample :
    (createWallet true envA alice w0).1 = .ok pkpA ∧
    (createWallet true envA alice (createWallet true envA alice w0).2).1 =
      .ok pkpB ∧
    pkpA ≠ pkpB ∧
    (createWallet true envA alice (createWallet true envA alice w0).2).2.minted
      = 2 :=
  ⟨rfl, rfl, by decide, rfl⟩

/-- Claim C1 as amended.  If the first createWallet call finds no
binding, mints successfully AND persists successfully, then (with no
external state change) the second call succeeds with the same key
record, taken from the stored binding, without minting again (the world
is unchanged). -/
theorem createWallet_idempotent_after_persist (env : Env) (u : UserData)
    (w : World) (pkp : PKPData)
    (h0 : findUserPKP w.store u.id = none)
    (h1 : env.saveOk = true)
    (h2 : env.mintPkp w.minted = .ok pkp) :
    (createWallet true env u w).1 = .ok pkp ∧
    (createWallet true env u (createWallet true env u w).2).1 = .ok pkp ∧
    (createWallet true env u (createWallet true env u w).2).2 =
      (createWallet true env u w).2 := by
  have hc : createWallet true env u w =
      (.ok pkp,
       { store := w.store ++ [{ user := u, pkp := pkp, createdAt := env.now }]
         minted := w.minted + 1 }) := by
    unfold createWallet
    rw [h0, h2]
    simp [saveUserPKPs, loadUserPKPs, h1]
  have hfind :
      findUserPKP
        (w.store ++ [{ user := u, pkp := pkp, createdAt := env.now }]) u.id =
      some { user := u, pkp := pkp, createdAt := env.now } :=
    findUserPKP_append_none h0 _ rfl
  refine ⟨by rw [hc], ?_, ?_⟩
  · rw [hc]
    unfold createWallet
    rw [hfind]
    rfl
  · rw [hc]
    unfold createWallet
    rw [hfind]
    rfl

/-- Witness for the amended C1: with a succeeding file write (envB) the
second call returns the cached key record and mints nothing. -/
theorem createWallet_idempotent_after_persist_witness :
    findUserPKP w0.store alice.id = none ∧ envB.saveOk = true ∧
    envB.mintPkp w0.minted = .ok pkpA ∧
    (createWallet true envB alice w0).1 = .ok pkpA ∧
    (createWallet true envB alice (createWallet true envB alice w0).2).1 =
      .ok pkpA ∧
    (createWallet true envB alice (createWallet true envB alice w0).2).2 =
      (createWallet true envB alice w0).2 :=
  ⟨rfl, rfl, rfl,
   (createWallet_idempotent_after_persist envB alice w0 pkpA rfl rfl rfl).1,
   (createWallet_idempotent_after_persist envB alice w0 pkpA rfl rfl rfl).2.1,
   (createWallet_idempotent_after_persist envB alice w0 pkpA rfl rfl rfl).2.2⟩

end PKP

namespace PKP

/-- Counterexample to C9 as stated: for a user id with no stored
binding, signMessage with messageType eip712 fails, but with the
not-found condition (getWallet runs first), not the
unsupported-message-type error the claim names for every user id. -/
theorem signMessage_eip712_counterexample :
    (signMessage true envA w0 "ghost" "hello"
      { chain := none, messageType := some .eip712 }).1 =
      .error (.notFound "ghost") ∧
    WErr.notFound "ghost" ≠ WErr.unsupportedMessageType "eip712" :=
  ⟨rfl, by decide⟩

/-- Claim C9 as amended.  With messageType eip712 the signing path is
never reached: the call never succeeds and sends zero external
requests; and whenever the manager is initialized, the user has a
stored binding and the (defaulted) chain is registered, the failure is
exactly the unsupported-message-type error, although the
SignMessageOptions type advertises eip712 as accepted. -/
theorem signMessage_eip712_never_signs (init : Bool) (env : Env) (w : World)
    (userId message : String) (options : SignMessageOptions)
    (h : options.messageType = some .eip712) :
    (∀ sig : String,
      (signMessage init env w userId message options).1 ≠ .ok sig) ∧
    (signMessage init env w userId message options).2.2 = 0 ∧
    (∀ b : UserPKPData, findUserPKP w.store userId = some b → init = true →
      (SUPPORTED_CHAINS (options.chain.getD "datil")).isSome = true →
      (signMessage init env w userId message options).1 =
        .error (.unsupportedMessageType "eip712")) := by
  have hmt : options.messageType.getD .plain = .eip712 := by rw [h]; rfl
  refine ⟨?_, ?_, ?_⟩
  · intro sig
    unfold signMessage
    dsimp only
    rw [hmt]
    cases getWallet init w.store userId (options.chain.getD "datil") with
    | error e => simp
    | ok wlt => simp
  · unfold signMessage
    dsimp only
    rw [hmt]
    cases getWallet init w.store userId (options.chain.getD "datil") with
    | error e => rfl
    | ok wlt => rfl
  · intro b hf hinit hchain
    subst hinit
    obtain ⟨cfg, hcc, hgw⟩ := getWallet_ok hf hchain
    unfold signMessage
    dsimp only
    rw [hmt, hgw]
    rfl

/-- Witness for the amended C9: alice has a binding in w1 and the
default chain datil is registered, so the unsupported-message-type
error is raised. -/
theorem signMessage_eip712_never_signs_witness :
    ({ chain := none, messageType := some .eip712 } :
      SignMessageOptions).messageType = some .eip712 ∧
    findUserPKP w1.store "alice" = some bindingA ∧
    (signMessage true envA w1 "alice" "hello"
      { chain := none, messageType := some .eip712 }).1 =
      .error (.unsupportedMessageType "eip712") :=
  ⟨rfl, rfl,
   (signMessage_eip712_never_signs true envA w1 "alice" "hello"
      { chain := none, messageType := some .eip712 } rfl).2.2
     bindingA rfl rfl rfl⟩

end PKP

namespace PKP

/-- Counterexample to C10 as stated: the caller supplies gasLimit 0 and
value the empty string, but the forwarded request carries the defaults
21000 and the string 0 instead of the supplied values (JS falsy
semantics of the defaulting operator). -/
theorem signTransaction_passthrough_counterexample :
    txZero.gasLimit = some 0 ∧ txZero.value = some "" ∧
    (signTransaction true envA w1 "alice" txZero "ethereum").2.2.2.map
      (fun r => r.gasLimit) = some 21000 ∧
    (signTransaction true envA w1 "alice" txZero "ethereum").2.2.2.map
      (fun r => r.value) = some "0" :=
  ⟨rfl, rfl, rfl, rfl⟩

/-- Claim C10 as amended.  For a user with a binding and a registered
chain, the request forwarded to the signing operation is the caller's
request with chainId set from the static table; gasLimit, gasPrice and
value fall back to 21000, 20 gwei and the string 0 not only when
omitted but also when the supplied value is JS-falsy (0 or the empty
string), and are passed through unchanged otherwise. -/
theorem signTransaction_request_spec (env : Env) (w : World)
    (userId chain : String) (cfg : ChainConfig) (b : UserPKPData)
    (transaction : TransactionRequest)
    (hf : findUserPKP w.store userId = some b)
    (hc : SUPPORTED_CHAINS chain = some cfg) :
    (signTransaction true env w userId transaction chain).2.2.2 =
      some (buildTxRequest transaction cfg.chainId) ∧
    (buildTxRequest transaction cfg.chainId).chainId = cfg.chainId ∧
    (buildTxRequest transaction cfg.chainId).«to» = transaction.«to» ∧
    (buildTxRequest transaction cfg.chainId).data = transaction.data ∧
    (transaction.gasLimit = none ∨ transaction.gasLimit = some 0 →
      (buildTxRequest transaction cfg.chainId).gasLimit = 21000) ∧
    (∀ n : Nat, transaction.gasLimit = some n → n ≠ 0 →
      (buildTxRequest transaction cfg.chainId).gasLimit = n) ∧
    (transaction.gasPrice = none ∨ transaction.gasPrice = some "" →
      (buildTxRequest transaction cfg.chainId).gasPrice =
        .defaultWei twentyGweiWei) ∧
    (∀ p : String, transaction.gasPrice = some p → p ≠ "" →
      (buildTxRequest transaction cfg.chainId).gasPrice = .fromCaller p) ∧
    (transaction.value = none ∨ transaction.value = some "" →
      (buildTxRequest transaction cfg.chainId).value = "0") ∧
    (∀ v : String, transaction.value = some v → v ≠ "" →
      (buildTxRequest transaction cfg.chainId).value = v) := by
  obtain ⟨cfg2, hcc, hgw⟩ := getWallet_ok hf (by rw [hc]; rfl)
  rw [hc] at hcc
  cases hcc
  refine ⟨?_, rfl, rfl, rfl, ?_, ?_, ?_, ?_, ?_, ?_⟩
  · unfold signTransaction
    rw [hgw]
    unfold getChainConfig
    rw [hc]
    cases env.signOutcome <;> rfl
  · rintro (hn | hn) <;> simp [buildTxRequest, jsOrNat, hn]
  · intro n hn hne
    simp [buildTxRequest, jsOrNat, hn, hne]
  · rintro (hp | hp) <;> simp [buildTxRequest, hp]
  · intro p hp hpe
    simp [buildTxRequest, hp, hpe]
  · rintro (hv | hv) <;> simp [buildTxRequest, jsOrStr, hv]
  · intro v hv hve
    simp [buildTxRequest, jsOrStr, hv, hve]

/-- Witness for the amended C10 at concrete inputs. -/
theorem signTransaction_request_spec_witness :
    findUserPKP w1.store "alice" = some bindingA ∧
    SUPPORTED_CHAINS "ethereum" =
      some { name := "Ethereum Mainnet", chainId := 1,
             rpcUrl := "https://eth.llamarpc.com",
             nativeCurrency := { name := "Ether", symbol := "ETH",
                                 decimals := 18 },
             blockExplorer := some "https://etherscan.io" } ∧
    (signTransaction true envA w1 "alice" txZero "ethereum").2.2.2 =
      some (buildTxRequest txZero 1) :=
  ⟨rfl, rfl,
   (signTransaction_request_spec envA w1 "alice" "ethereum" _ bindingA txZero
      rfl rfl).1⟩

end PKP
